import Mathlib

/-!
Shallow embedding of the student check-in kiosk client (login page and
admin roster page) and proofs about its eligibility, search, sort,
pagination, session-aggregation and CSV-export logic.

Modelling conventions:
* JavaScript strings are `String`; an absent (`undefined`/`null`) string
  field and the empty string are identified, matching how the code only
  ever distinguishes them through truthiness tests (`s.firstName && ...`,
  `a.pin || ""`).
* Timestamps are `Int` values counted in minutes of local time; a missing
  date field is `none`.  `new Date(x).setHours(0,0,0,0)` is modelled by
  flooring to a multiple of 1440 (minutes per day).
* `Date.prototype.toLocaleString` is locale/environment defined; it is
  modelled abstractly by decimal rendering of the timestamp.  No theorem
  depends on its output.
* JavaScript numbers used for `hours` are modelled as `ℚ`; `toFixed(2)`
  is modelled as decimal rounding to hundredths.
* `Array.prototype.sort` is required by the language standard to be a
  stable sort consistent with the comparator; it is modelled by
  `List.mergeSort` on the comparator-induced boolean order.
-/

/-- A check-in/check-out session record.  `checkout = none` means the
session is still open; `hours` is written at checkout time. -/
structure Session where
  checkin : Option Int
  checkout : Option Int
  hours : Option ℚ
deriving DecidableEq

/-- A student record as fetched from the backend.  String fields use `""`
for absent values; date fields use `none`. -/
structure Student where
  firstName : String
  lastName : String
  email : String
  pin : String
  status : String
  games : List String
  registrationDate : Option Int
  endOfClassDate : Option Int
  endOfPracticeDate : Option Int
  sessions : Option (List Session)
deriving DecidableEq

/-- The singleton settings record configuring eligibility rules. -/
structure Settings where
  blockedStatuses : List String
  enforceClassEndDate : Bool
  enforcePracticeEndDate : Bool
deriving DecidableEq

/-- Result object of `validateStudent`: `{ valid, message? }`. -/
structure ValidationResult where
  valid : Bool
  message : Option String
deriving DecidableEq

/-- `setHours(0,0,0,0)`: truncate a timestamp (minutes) to local midnight. -/
def dayStart (t : Int) : Int := 1440 * (Int.fdiv t 1440)

/-- The message interpolated for a blocked status. -/
def blockedMessage (status : String) : String :=
  "Students with status \"" ++ status ++ "\" are not allowed to check in."

/-- Message for a passed class end date. -/
def classEndMessage : String :=
  "Your class end date has passed. Please contact administration."

/-- Message for a passed practice end date. -/
def practiceEndMessage : String :=
  "Your practice end date has passed. Please contact administration."

/-- `settings.enforce*EndDate && studentData.date` guard followed by
`today > truncatedDate`: true when the (present) end date lies on a day
strictly before today. -/
def endDatePassed (today : Int) (d : Option Int) : Bool :=
  match d with
  | none => false
  | some e => decide (today > dayStart e)

/-- `validateStudent` from the login page: status blocking first, then the
class end date rule, then the practice end date rule; `settings = none`
(not yet fetched) validates trivially. -/
def validateStudent (settings : Option Settings) (now : Int)
    (studentData : Student) : ValidationResult :=
  match settings with
  | none => { valid := true, message := none }
  | some s =>
    let today := dayStart now
    if 0 < s.blockedStatuses.length ∧ studentData.status ≠ "" ∧
        studentData.status ∈ s.blockedStatuses then
      { valid := false, message := some (blockedMessage studentData.status) }
    else if s.enforceClassEndDate = true ∧
        endDatePassed today studentData.endOfClassDate = true then
      { valid := false, message := some classEndMessage }
    else if s.enforcePracticeEndDate = true ∧
        endDatePassed today studentData.endOfPracticeDate = true then
      { valid := false, message := some practiceEndMessage }
    else
      { valid := true, message := none }

/-- The client-side default substituted when the settings fetch fails or
returns an empty array. -/
def fallbackSettings : Settings :=
  { blockedStatuses := ["Suspended"]
    enforceClassEndDate := false
    enforcePracticeEndDate := false }

/-- `fetchSettings`: `data[0] || fallback` on success, fallback on a
network error (`response = none`). -/
def fetchSettingsResult (response : Option (List Settings)) : Settings :=
  match response with
  | none => fallbackSettings
  | some data => data.headD fallbackSettings

/-- Active-session detection from `handlePinSubmit`:
`sessions?.filter(s => s.checkin && !s.checkout)` is nonempty. -/
def hasActiveSession (sessions : Option (List Session)) : Bool :=
  match sessions with
  | none => false
  | some l =>
    decide (0 < (l.filter fun s => s.checkin.isSome && s.checkout.isNone).length)

/-- `haystack.includes(pattern)` on lowercased strings: substring test. -/
def strIncludes (s pat : String) : Bool := decide (pat.toList <:+: s.toList)

/-- `String.prototype.trim()`: strip leading and trailing whitespace
(modelled character-listwise). -/
def jsTrim (s : String) : String :=
  String.mk
    (((s.toList.dropWhile Char.isWhitespace).reverse.dropWhile
      Char.isWhitespace).reverse)

/-- `String.prototype.toLowerCase()` (modelled character-listwise). -/
def jsToLower (s : String) : String := String.mk (s.toList.map Char.toLower)

/-- The admin page's free-text criterion: the whole lowercased query is
substring-matched against `firstName`, `lastName` or `email`, each behind
the code's truthiness guard. -/
def textSearchMatch (term : String) (student : Student) : Bool :=
  (student.firstName != "" && strIncludes (jsToLower student.firstName) term) ||
  (student.lastName != "" && strIncludes (jsToLower student.lastName) term) ||
  (student.email != "" && strIncludes (jsToLower student.email) term)

/-- One of the three "on or after" date filters: absent field excludes the
student, otherwise midnight-truncated dates are compared. -/
def dateOnOrAfter (filterDate : Int) (d : Option Int) : Bool :=
  match d with
  | none => false
  | some x => decide (dayStart x ≥ dayStart filterDate)

/-- The admin page's filter inputs.  `""`/`none` mean "filter not set". -/
structure FilterCriteria where
  searchTerm : String
  statusFilter : String
  gameFilter : String
  registrationDateFilter : Option Int
  endOfClassDateFilter : Option Int
  endOfPracticeDateFilter : Option Int
deriving DecidableEq

/-- All six filter inputs cleared. -/
def emptyCriteria : FilterCriteria := ⟨"", "", "", none, none, none⟩

/-- `filterStudents` from the admin page: six AND-combined optional
criteria applied in sequence. -/
def filterStudents (students : List Student) (c : FilterCriteria) :
    List Student :=
  let f1 := if jsTrim c.searchTerm ≠ "" then
      students.filter (textSearchMatch (jsToLower c.searchTerm)) else students
  let f2 := if c.statusFilter ≠ "" then
      f1.filter (fun s => s.status == c.statusFilter) else f1
  let f3 := if c.gameFilter ≠ "" then
      f2.filter (fun s => s.games.contains c.gameFilter) else f2
  let f4 := match c.registrationDateFilter with
    | none => f3
    | some d => f3.filter (fun s => dateOnOrAfter d s.registrationDate)
  let f5 := match c.endOfClassDateFilter with
    | none => f4
    | some d => f4.filter (fun s => dateOnOrAfter d s.endOfClassDate)
  let f6 := match c.endOfPracticeDateFilter with
    | none => f5
    | some d => f5.filter (fun s => dateOnOrAfter d s.endOfPracticeDate)
  f6

/-- `calculateTotalHours`: sum of `session.hours || 0` over a session
list, 0 when the list is absent or empty. -/
def calculateTotalHours (sessions : Option (List Session)) : ℚ :=
  match sessions with
  | none => 0
  | some l =>
    if l.length = 0 then 0
    else l.foldl (fun total s => total + s.hours.getD 0) 0

/-- The sortable columns of the roster table (the `switch` keys of
`getSortedStudents`). -/
inductive SortColumn where
  | name | pin | email | status | sessions | hours
deriving DecidableEq

/-- Derived sort value for the name column:
`` `${lastName || ""} ${firstName || ""}`.toLowerCase() ``. -/
def nameSortKey (a : Student) : String :=
  jsToLower (a.lastName ++ " " ++ a.firstName)

/-- Derived sort value for the sessions column: `a.sessions?.length || 0`. -/
def sessionCountKey (a : Student) : Nat :=
  match a.sessions with
  | none => 0
  | some l => l.length

/-- The comparator body shared by every column: `aVal < bVal` gives -1
ascending / 1 descending, `aVal > bVal` the reverse, equal gives 0. -/
def keyCmp {β : Type} [LinearOrder β] (asc : Bool) (a b : β) : Int :=
  if a < b then (if asc then -1 else 1)
  else if b < a then (if asc then 1 else -1)
  else 0

/-- The full comparator of `getSortedStudents`, one derived value per
column. -/
def studentCompare (col : SortColumn) (asc : Bool) (a b : Student) : Int :=
  match col with
  | .name => keyCmp asc (nameSortKey a) (nameSortKey b)
  | .pin => keyCmp asc a.pin b.pin
  | .email => keyCmp asc (jsToLower a.email) (jsToLower b.email)
  | .status => keyCmp asc (jsToLower a.status) (jsToLower b.status)
  | .sessions => keyCmp asc (sessionCountKey a) (sessionCountKey b)
  | .hours =>
    keyCmp asc (calculateTotalHours a.sessions) (calculateTotalHours b.sessions)

/-- `getSortedStudents`: `[...list].sort(comparator)`.  JavaScript's sort
is standard-required to be stable and consistent with the comparator, so
it is modelled by `mergeSort` over the comparator's non-positive cone. -/
def getSortedStudents (col : SortColumn) (asc : Bool) (l : List Student) :
    List Student :=
  l.mergeSort fun a b => decide (studentCompare col asc a b ≤ 0)

/-- "The derived sort values of `a` and `b` for this column are equal." -/
def sortValEq (col : SortColumn) (a b : Student) : Prop :=
  match col with
  | .name => nameSortKey a = nameSortKey b
  | .pin => a.pin = b.pin
  | .email => jsToLower a.email = jsToLower b.email
  | .status => jsToLower a.status = jsToLower b.status
  | .sessions => sessionCountKey a = sessionCountKey b
  | .hours => calculateTotalHours a.sessions = calculateTotalHours b.sessions

/-- Fixed page size of the roster table. -/
def ITEMS_PER_PAGE : Nat := 25

/-- `Math.ceil(list.length / ITEMS_PER_PAGE)`. -/
def totalPages (n : Nat) : Nat := (n + ITEMS_PER_PAGE - 1) / ITEMS_PER_PAGE

/-- `sortedStudents.slice((page-1)*25, page*25)` for the pages the UI can
request (page ≥ 1). -/
def paginate {α : Type} (l : List α) (page : Int) : List α :=
  (l.drop ((page - 1) * (ITEMS_PER_PAGE : Int)).toNat).take ITEMS_PER_PAGE

/-- `goToPage`: `setCurrentPage(Math.max(1, Math.min(page, totalPages)))`. -/
def goToPage (page : Int) (total : Nat) : Int := max 1 (min page (total : Int))

/-- `getLastCheckoutDate`: latest `checkout` among closed sessions,
`none` when there is none. -/
def getLastCheckoutDate (student : Student) : Option Int :=
  match student.sessions with
  | none => none
  | some l =>
    let withCheckout := l.filterMap (fun s => s.checkout)
    withCheckout.foldl (fun acc t =>
      match acc with
      | none => some t
      | some m => some (max m t)) none

/-- Abstract model of `new Date(t).toLocaleString()` (locale defined; no
theorem depends on its output). -/
def localeString (t : Int) : String := toString t

/-- Two-character decimal rendering of `n % 100`. -/
def twoDigitString (n : Nat) : String :=
  String.mk [Nat.digitChar (n / 10 % 10), Nat.digitChar (n % 10)]

/-- Hundredths of a nonnegative rational, rounded to nearest
(`⌊100·q + 1/2⌋ = (200·num + den) div (2·den)` on the reduced fraction). -/
def fixedHundredths (q : ℚ) : Nat :=
  ((200 * q.num + (q.den : Int)).fdiv (2 * (q.den : Int))).toNat

/-- Render a hundredths count as `"<int>.<dd>"`. -/
def fixedFormat (n : Nat) : String :=
  toString (n / 100) ++ "." ++ twoDigitString (n % 100)

/-- `x.toFixed(2)`: decimal rounding to hundredths with two digits after
the point. -/
def toFixed2 (q : ℚ) : String :=
  if q < 0 then "-" ++ fixedFormat (fixedHundredths (-q))
  else fixedFormat (fixedHundredths q)

/-- `getFullName`: `` `${firstName || ""} ${lastName || ""}`.trim() ``. -/
def getFullName (student : Student) : String :=
  jsTrim (student.firstName ++ " " ++ student.lastName)

/-- Check-in cell of a sessions-CSV row. -/
def checkinCell (session : Session) : String :=
  match session.checkin with
  | none => ""
  | some t => localeString t

/-- Check-out cell of a sessions-CSV row: the literal `"In Progress"` for
an open session. -/
def checkoutCell (session : Session) : String :=
  match session.checkout with
  | none => "In Progress"
  | some t => localeString t

/-- Hours cell of a sessions-CSV row: `session.hours ? toFixed(2) : ""`,
where JavaScript truthiness sends both absent and zero hours to `""`. -/
def hoursCell (session : Session) : String :=
  match session.hours with
  | none => ""
  | some h => if h = 0 then "" else toFixed2 h

/-- Header row of the sessions CSV. -/
def sessionsHeaders : List String :=
  ["Student Name", "PIN", "Email", "Check-in Date/Time",
   "Check-out Date/Time", "Hours"]

/-- One data row of the sessions CSV. -/
def sessionRow (student : Student) (session : Session) : List String :=
  [getFullName student, student.pin, student.email,
   checkinCell session, checkoutCell session, hoursCell session]

/-- The row list built by `generateSessionsCSV`: headers first, then one
row per session of each student (students without sessions contribute no
rows). -/
def generateSessionsCSVRows (students : List Student) : List (List String) :=
  sessionsHeaders :: students.flatMap (fun student =>
    match student.sessions with
    | none => []
    | some l => l.map (sessionRow student))

/-- Wrap every cell in double quotes (no escaping, as in the source). -/
def quoteCell (cell : String) : String := "\"" ++ cell ++ "\""

/-- Rows to CSV text: quoted cells joined by commas, rows by newlines. -/
def csvOfRows (rows : List (List String)) : String :=
  String.intercalate "\n"
    (rows.map fun row => String.intercalate "," (row.map quoteCell))

/-- `generateSessionsCSV` as a string. -/
def generateSessionsCSV (students : List Student) : String :=
  csvOfRows (generateSessionsCSVRows students)

/-- The admin page state relevant to the pagination invariant. -/
structure AdminState where
  students : List Student
  filtered : List Student
  currentPage : Int
deriving DecidableEq

/-- Initial admin state: `useState([])`, `useState([])`, `useState(1)`. -/
def initialAdminState : AdminState :=
  { students := [], filtered := [], currentPage := 1 }

/-- The state transitions of the admin page that touch the roster or the
current page: a roster fetch, a run of `filterStudents` (triggered by any
filter or roster change, resetting the page to 1), and `goToPage`. -/
inductive AdminStep : AdminState → AdminState → Prop where
  | fetch (s : AdminState) (data : List Student) :
      AdminStep s { s with students := data }
  | filter (s : AdminState) (c : FilterCriteria) :
      AdminStep s { s with filtered := filterStudents s.students c,
                           currentPage := 1 }
  | goto (s : AdminState) (p : Int) :
      AdminStep s { s with
        currentPage := goToPage p (totalPages s.filtered.length) }

/-- States reachable from the initial admin state. -/
inductive AdminReachable : AdminState → Prop where
  | init : AdminReachable initialAdminState
  | step {s t : AdminState} :
      AdminReachable s → AdminStep s t → AdminReachable t

/-- "The string ends in a decimal point followed by exactly two digits":
the shape `toFixed(2)` output is claimed to have. -/
def twoDecimalPlaces (s : String) : Prop :=
  ∃ pre d1 d2, d1.isDigit = true ∧ d2.isDigit = true ∧
    s = pre ++ "." ++ String.mk [d1, d2]

/-! ## Helper lemmas -/

lemma take_add_local {α : Type} (l : List α) (m n : Nat) :
    l.take (m + n) = l.take m ++ (l.drop m).take n := by
  conv_lhs => rw [← List.take_append_drop m (l.take (m + n))]
  rw [List.take_take, min_eq_left (Nat.le_add_right m n), ← List.take_drop]

lemma paginate_cast_succ {α : Type} (l : List α) (k : Nat) :
    paginate l ((k + 1 : Nat) : Int) =
      (l.drop (k * ITEMS_PER_PAGE)).take ITEMS_PER_PAGE := by
  simp only [paginate, ITEMS_PER_PAGE]
  congr 2
  omega

lemma paginate_join {α : Type} (l : List α) (k : Nat) :
    ((List.range' 1 k).map fun p : Nat => paginate l (p : Int)).flatten =
      l.take (k * ITEMS_PER_PAGE) := by
  induction k with
  | zero => rfl
  | succ k ih =>
    rw [List.range'_concat]
    simp only [List.map_append, List.flatten_append, ih, List.map_cons,
      List.map_nil, List.flatten_cons, List.flatten_nil, List.append_nil]
    have h1 : 1 + 1 * k = k + 1 := by omega
    rw [h1, paginate_cast_succ, ← take_add_local]
    congr 1
    simp only [ITEMS_PER_PAGE]
    ring

lemma paginate_length {α : Type} (l : List α) (p : Nat) (hp : 1 ≤ p) :
    (paginate l (p : Int)).length =
      min ITEMS_PER_PAGE (l.length - (p - 1) * ITEMS_PER_PAGE) := by
  obtain ⟨k, rfl⟩ : ∃ k, p = k + 1 := ⟨p - 1, by omega⟩
  rw [paginate_cast_succ]
  simp only [List.length_take, List.length_drop, ITEMS_PER_PAGE]
  omega

lemma paginate_nil {α : Type} (page : Int) :
    paginate ([] : List α) page = [] := by
  simp [paginate]

lemma validateStudent_blocked_eq (s : Settings) (now : Int) (st : Student)
    (hne : st.status ≠ "") (hmem : st.status ∈ s.blockedStatuses) :
    validateStudent (some s) now st =
      { valid := false, message := some (blockedMessage st.status) } := by
  have hlen : 0 < s.blockedStatuses.length :=
    List.length_pos.mpr (List.ne_nil_of_mem hmem)
  simp only [validateStudent]
  rw [if_pos ⟨hlen, hne, hmem⟩]

lemma validateStudent_valid_of (s : Settings) (now : Int) (st : Student)
    (h1 : st.status ∉ s.blockedStatuses ∨ st.status = "")
    (h2 : s.enforceClassEndDate = false ∨
      endDatePassed (dayStart now) st.endOfClassDate = false)
    (h3 : s.enforcePracticeEndDate = false ∨
      endDatePassed (dayStart now) st.endOfPracticeDate = false) :
    validateStudent (some s) now st = { valid := true, message := none } := by
  have c1 : ¬(0 < s.blockedStatuses.length ∧ st.status ≠ "" ∧
      st.status ∈ s.blockedStatuses) := by
    rcases h1 with h | h
    · exact fun hc => h hc.2.2
    · exact fun hc => hc.2.1 h
  have c2 : ¬(s.enforceClassEndDate = true ∧
      endDatePassed (dayStart now) st.endOfClassDate = true) := by
    rcases h2 with h | h <;> simp [h]
  have c3 : ¬(s.enforcePracticeEndDate = true ∧
      endDatePassed (dayStart now) st.endOfPracticeDate = true) := by
    rcases h3 with h | h <;> simp [h]
  simp only [validateStudent]
  rw [if_neg c1, if_neg c2, if_neg c3]

lemma filter_stage_if (l : List Student) (cond : Prop) [Decidable cond]
    (p : Student → Bool) :
    List.Sublist (if cond then l.filter p else l) l := by
  split_ifs
  · exact List.filter_sublist l
  · exact List.Sublist.refl l

lemma filter_stage_match (l : List Student) (o : Option Int)
    (g : Int → Student → Bool) :
    List.Sublist (match o with | none => l | some d => l.filter (g d)) l := by
  cases o
  · exact List.Sublist.refl l
  · exact List.filter_sublist l

/-! ## Claim theorems -/

/-- **C1** (corrected).  The status rule does short-circuit every date
rule, but only for a *truthy* (non-empty) status: whenever the student's
status is a non-empty member of `settings.blockedStatuses`,
`validateStudent` returns not-allowed with the message naming that
status, regardless of date fields and enforcement flags. -/
theorem validateStudent_blocked_status (s : Settings) (now : Int)
    (st : Student) (hne : st.status ≠ "")
    (hmem : st.status ∈ s.blockedStatuses) :
    validateStudent (some s) now st =
      { valid := false, message := some (blockedMessage st.status) } :=
  validateStudent_blocked_eq s now st hne hmem

/-- **C1** counterexample to the claim as stated: the empty string is a
member of `blockedStatuses`, the student's status is that member, yet
`validateStudent` returns allowed (JavaScript's truthiness guard
`studentData.status && ...` skips the rule for the falsy string `""`). -/
theorem validateStudent_empty_status_not_blocked :
    ("" ∈ (Settings.mk [""] false false).blockedStatuses) ∧
    (validateStudent (some (Settings.mk [""] false false)) 0
      ⟨"", "", "", "", "", [], none, none, none, none⟩).valid = true := by
  decide

/-- Witness for **C1**: the blocked-status theorem applied to a concrete
suspended student. -/
theorem validateStudent_blocked_status_witness :
    validateStudent (some fallbackSettings) 0
      ⟨"", "", "", "", "Suspended", [], none, none, none, none⟩ =
      { valid := false, message := some (blockedMessage "Suspended") } :=
  validateStudent_blocked_status fallbackSettings 0
    ⟨"", "", "", "", "Suspended", [], none, none, none, none⟩
    (by decide) (by decide)

/-- **C3** (confirmed).  A failed or empty settings fetch yields exactly
the fallback settings; under the fallback every student with status
`"Suspended"` is rejected, and every student with any other status is
accepted (so login is never hard-failed merely because settings were
unavailable). -/
theorem fetchSettings_fallback_safe :
    fetchSettingsResult none = fallbackSettings ∧
    fetchSettingsResult (some []) = fallbackSettings ∧
    (∀ (now : Int) (st : Student), st.status = "Suspended" →
      (validateStudent (some fallbackSettings) now st).valid = false) ∧
    (∀ (now : Int) (st : Student), st.status ≠ "Suspended" →
      (validateStudent (some fallbackSettings) now st).valid = true) := by
  refine ⟨rfl, rfl, ?_, ?_⟩
  · intro now st h
    rw [validateStudent_blocked_eq fallbackSettings now st
      (by simp [h]) (by simp [fallbackSettings, h])]
  · intro now st h
    rw [validateStudent_valid_of fallbackSettings now st
      (Or.inl (by simp [fallbackSettings, h])) (Or.inl rfl) (Or.inl rfl)]

/-- Witness for **C3**: the fallback verdicts evaluated on one suspended
and one current student. -/
theorem fetchSettings_fallback_safe_witness :
    (validateStudent (some fallbackSettings) 99
      ⟨"A", "B", "", "", "Suspended", [], none, none, none, none⟩).valid
        = false ∧
    (validateStudent (some fallbackSettings) 99
      ⟨"A", "B", "", "", "Current Student", [], none, none, none,
        none⟩).valid = true :=
  ⟨fetchSettings_fallback_safe.2.2.1 99
      ⟨"A", "B", "", "", "Suspended", [], none, none, none, none⟩ rfl,
    fetchSettings_fallback_safe.2.2.2 99
      ⟨"A", "B", "", "", "Current Student", [], none, none, none, none⟩
      (by decide)⟩

/-- **C4** (confirmed).  `hasActiveSession` is true exactly when some
session has `checkin` set and `checkout` unset; it is false on the empty
list (and on an absent list), and any session list containing two open
sessions — a violation of the at-most-one invariant — still yields true
rather than an error. -/
theorem hasActiveSession_iff :
    (∀ l : List Session, hasActiveSession (some l) = true ↔
      ∃ s ∈ l, s.checkin.isSome = true ∧ s.checkout.isNone = true) ∧
    hasActiveSession (some []) = false ∧
    hasActiveSession none = false ∧
    (∀ (l : List Session) (s1 s2 : Session), s1 ∈ l → s2 ∈ l → s1 ≠ s2 →
      s1.checkin.isSome = true → s1.checkout.isNone = true →
      s2.checkin.isSome = true → s2.checkout.isNone = true →
      hasActiveSession (some l) = true) := by
  have key : ∀ l : List Session, hasActiveSession (some l) = true ↔
      ∃ s ∈ l, s.checkin.isSome = true ∧ s.checkout.isNone = true := by
    intro l
    simp only [hasActiveSession, decide_eq_true_eq, List.length_pos, ne_eq,
      List.filter_eq_nil_iff, Bool.and_eq_true, not_forall]
    constructor
    · rintro ⟨s, hs, hp⟩
      exact ⟨s, hs, not_not.mp (by simpa using hp)⟩
    · rintro ⟨s, hs, hp⟩
      exact ⟨s, hs, by simpa using hp⟩
  refine ⟨key, rfl, rfl, ?_⟩
  intro l s1 s2 h1 _ _ hc1 hc2 _ _
  exact (key l).mpr ⟨s1, h1, hc1, hc2⟩

/-- Witness for **C4**: a list with one closed and two open sessions has
an active session; the empty list does not. -/
theorem hasActiveSession_iff_witness :
    hasActiveSession (some [⟨some 1, some 2, some 1⟩,
      ⟨some 3, none, none⟩, ⟨some 4, none, none⟩]) = true ∧
    hasActiveSession (some []) = false :=
  ⟨hasActiveSession_iff.2.2.2
      [⟨some 1, some 2, some 1⟩, ⟨some 3, none, none⟩, ⟨some 4, none, none⟩]
      ⟨some 3, none, none⟩ ⟨some 4, none, none⟩
      (by decide) (by decide) (by decide) rfl rfl rfl rfl,
    hasActiveSession_iff.2.1⟩

/-- **C2** (corrected).  With a non-blocked status, class end date
enforcement on and an `endOfClassDate` present, the verdict is
not-allowed exactly when today (midnight-truncated) is strictly after the
midnight-truncated end date — *provided the practice rule does not
independently reject*; in particular the boundary day itself is
permitted only when the practice rule also passes. -/
theorem validateStudent_classEnd_boundary (s : Settings) (now : Int)
    (st : Student) (e : Int)
    (hb : st.status ∉ s.blockedStatuses ∨ st.status = "")
    (hc : s.enforceClassEndDate = true)
    (he : st.endOfClassDate = some e)
    (hp : s.enforcePracticeEndDate = false ∨
      endDatePassed (dayStart now) st.endOfPracticeDate = false) :
    (validateStudent (some s) now st).valid = false ↔
      dayStart now > dayStart e := by
  have c1 : ¬(0 < s.blockedStatuses.length ∧ st.status ≠ "" ∧
      st.status ∈ s.blockedStatuses) := by
    rcases hb with h | h
    · exact fun hc => h hc.2.2
    · exact fun hc => hc.2.1 h
  constructor
  · intro hv
    by_contra hlt
    rw [validateStudent_valid_of s now st hb
      (Or.inr (by rw [he]; simp only [endDatePassed]
                  exact decide_eq_false hlt)) hp] at hv
    simp at hv
  · intro hgt
    simp only [validateStudent]
    rw [if_neg c1,
      if_pos ⟨hc, by rw [he]; simp only [endDatePassed]
                     exact decide_eq_true hgt⟩]

/-- **C2** counterexample to the claim as stated: status not blocked,
class end date enforcement on, and the class end date falling on today —
yet the evaluation returns not-allowed, because the (independently
enabled) practice end date rule fires.  The claimed "exactly when" and
the "boundary day is permitted" clause both fail here. -/
theorem validateStudent_classEnd_eq_today_practice_overrides :
    ("x" ∉ (Settings.mk [] true true).blockedStatuses) ∧
    dayStart 14405 = dayStart 14400 ∧
    (validateStudent (some (Settings.mk [] true true)) 14405
      ⟨"", "", "", "", "x", [], none, some 14400, some 12960,
        none⟩).valid = false := by
  decide

/-- Witness for **C2**: the boundary theorem applied to a student whose
class end date is one day in the past. -/
theorem validateStudent_classEnd_boundary_witness :
    (validateStudent (some (Settings.mk [] true false)) 14405
      ⟨"", "", "", "", "x", [], none, some 12960, none, none⟩).valid
      = false :=
  (validateStudent_classEnd_boundary (Settings.mk [] true false) 14405
    ⟨"", "", "", "", "x", [], none, some 12960, none, none⟩ 12960
    (Or.inl (by decide)) rfl rfl (Or.inl rfl)).mpr (by decide)

/-- **C5** (corrected).  The roster search has no per-term AND semantics
and no 3/2/1 scoring: the whole lowercased query (not split on
whitespace) is substring-matched against first name, last name *and
email*, and the result is an order-preserving sublist of the roster —
no reordering by score. -/
theorem filterStudents_whole_query_substring :
    (∀ (students : List Student) (c : FilterCriteria),
      (filterStudents students c).Sublist students) ∧
    (∀ (students : List Student) (c : FilterCriteria),
      c.statusFilter = "" → c.gameFilter = "" →
      c.registrationDateFilter = none → c.endOfClassDateFilter = none →
      c.endOfPracticeDateFilter = none → jsTrim c.searchTerm ≠ "" →
      ∀ st : Student, st ∈ filterStudents students c ↔
        st ∈ students ∧ textSearchMatch (jsToLower c.searchTerm) st = true) := by
  constructor
  · intro students c
    simp only [filterStudents]
    exact ((((filter_stage_match _ _ _).trans
      (filter_stage_match _ _ _)).trans
        (filter_stage_match _ _ _)).trans
          ((filter_stage_if _ _ _).trans
            (filter_stage_if _ _ _))).trans
              (filter_stage_if _ _ _)
  · intro students c h1 h2 h3 h4 h5 h6 st
    simp [filterStudents, h1, h2, h3, h4, h5, h6, List.mem_filter]

/-- **C5** counterexample to the claim as stated: the query `"a b"` has
two whitespace-separated terms and the term `"a"` matches neither the
first name `"cc"` nor the last name `"dd"` (not even as a substring, so
at no scoring tier), yet the student is *retained*, because the code
substring-matches the entire query `"a b"` against the email field. -/
theorem filterStudents_no_term_and_semantics :
    ("a b".toList = ['a', ' ', 'b']) ∧
    strIncludes (jsToLower "cc") "a" = false ∧
    strIncludes (jsToLower "dd") "a" = false ∧
    filterStudents
      [⟨"cc", "dd", "a b c", "", "", [], none, none, none, none⟩]
      { emptyCriteria with searchTerm := "a b" } =
      [⟨"cc", "dd", "a b c", "", "", [], none, none, none, none⟩] := by
  decide

/-- Witness for **C5**: the membership characterisation applied to a
one-student roster and the query `"Jane"`. -/
theorem filterStudents_whole_query_substring_witness :
    (⟨"Jane", "Smith", "j@x", "1", "Current Student", [], none, none,
      none, none⟩ : Student) ∈
      filterStudents
        [⟨"Jane", "Smith", "j@x", "1", "Current Student", [], none, none,
          none, none⟩]
        { emptyCriteria with searchTerm := "Jane" } :=
  (filterStudents_whole_query_substring.2
    [⟨"Jane", "Smith", "j@x", "1", "Current Student", [], none, none,
      none, none⟩]
    { emptyCriteria with searchTerm := "Jane" }
    rfl rfl rfl rfl rfl (by decide) _).mpr ⟨by decide, by decide⟩

/-- **C6** (corrected).  An empty or all-whitespace query (with every
other filter cleared) yields the *full roster*, not an empty result set:
the code treats a blank query as "no text filter". -/
theorem filterStudents_empty_query_full_roster
    (students : List Student) (c : FilterCriteria)
    (h1 : jsTrim c.searchTerm = "") (h2 : c.statusFilter = "")
    (h3 : c.gameFilter = "") (h4 : c.registrationDateFilter = none)
    (h5 : c.endOfClassDateFilter = none)
    (h6 : c.endOfPracticeDateFilter = none) :
    filterStudents students c = students := by
  simp [filterStudents, h1, h2, h3, h4, h5, h6]

/-- **C6** counterexample to the claim as stated: on a one-student
roster, both the empty query and an all-whitespace query return the full
roster, which is not the empty result set the claim demands. -/
theorem filterStudents_empty_query_not_empty :
    filterStudents
      [⟨"Jane", "Smith", "j@x", "1", "Current Student", [], none, none,
        none, none⟩] emptyCriteria =
      [⟨"Jane", "Smith", "j@x", "1", "Current Student", [], none, none,
        none, none⟩] ∧
    filterStudents
      [⟨"Jane", "Smith", "j@x", "1", "Current Student", [], none, none,
        none, none⟩] { emptyCriteria with searchTerm := "   " } =
      [⟨"Jane", "Smith", "j@x", "1", "Current Student", [], none, none,
        none, none⟩] ∧
    ([⟨"Jane", "Smith", "j@x", "1", "Current Student", [], none, none,
        none, none⟩] : List Student) ≠ [] := by
  decide

/-- Witness for **C6**: the full-roster theorem applied to a concrete
two-student roster and a whitespace query. -/
theorem filterStudents_empty_query_full_roster_witness :
    filterStudents
      [⟨"A", "B", "", "", "", [], none, none, none, none⟩,
       ⟨"C", "D", "", "", "", [], none, none, none, none⟩]
      { emptyCriteria with searchTerm := " " } =
      [⟨"A", "B", "", "", "", [], none, none, none, none⟩,
       ⟨"C", "D", "", "", "", [], none, none, none, none⟩] :=
  filterStudents_empty_query_full_roster _ _
    (by decide) rfl rfl rfl rfl rfl

/-- **C7** (corrected).  Pagination partitions the (sorted, filtered)
roster into `ceil(N/25)` pages in order, every page full except a shorter
final one, and `[25, 25, 10]` for N = 60; `goToPage` clamps into
`[1, ceil(N/25)]` for every *nonempty* roster.  (For the empty roster the
claimed interval `[1, 0]` is empty; `goToPage` then yields 1 — see the
counterexample.) -/
theorem pagination_partition_and_clamp :
    (∀ l : List Student,
      ((List.range' 1 (totalPages l.length)).map
        fun p : Nat => paginate l (p : Int)).flatten = l) ∧
    (∀ (l : List Student) (p : Nat), 1 ≤ p → p < totalPages l.length →
      (paginate l (p : Int)).length = ITEMS_PER_PAGE) ∧
    (∀ l : List Student, l ≠ [] →
      (paginate l ((totalPages l.length : Nat) : Int)).length =
        l.length - (totalPages l.length - 1) * ITEMS_PER_PAGE ∧
      1 ≤ (paginate l ((totalPages l.length : Nat) : Int)).length ∧
      (paginate l ((totalPages l.length : Nat) : Int)).length ≤
        ITEMS_PER_PAGE) ∧
    ((List.range' 1 (totalPages (List.range 60).length)).map
      (fun p : Nat => (paginate (List.range 60) (p : Int)).length) =
        [25, 25, 10]) ∧
    (∀ (p : Int) (l : List Student),
      1 ≤ goToPage p (totalPages l.length) ∧
      (l ≠ [] →
        goToPage p (totalPages l.length) ≤ (totalPages l.length : Int))) := by
  refine ⟨?_, ?_, ?_, by decide, ?_⟩
  · intro l
    rw [paginate_join]
    apply List.take_of_length_le
    simp only [totalPages, ITEMS_PER_PAGE]
    omega
  · intro l p h1 h2
    rw [paginate_length l p h1]
    simp only [totalPages, ITEMS_PER_PAGE] at h2 ⊢
    omega
  · intro l hne
    have hlen : 0 < l.length := List.length_pos.mpr hne
    have h1 : 1 ≤ totalPages l.length := by
      simp only [totalPages, ITEMS_PER_PAGE]
      omega
    rw [paginate_length l _ h1]
    simp only [totalPages, ITEMS_PER_PAGE] at *
    refine ⟨by omega, by omega, by omega⟩
  · intro p l
    refine ⟨le_max_left 1 _, fun hne => ?_⟩
    have h1 : 1 ≤ totalPages l.length := by
      have := List.length_pos.mpr hne
      simp only [totalPages, ITEMS_PER_PAGE]
      omega
    have h2 : (1 : Int) ≤ (totalPages l.length : Int) := by exact_mod_cast h1
    exact max_le h2 (min_le_right _ _)

/-- **C7** counterexample to the claim as stated: on the empty roster
(`totalPages = 0`) the clamped page is 1, which does not lie in the
claimed interval `[1, ceil(0/25)] = [1, 0]`. -/
theorem goToPage_empty_roster_out_of_range :
    goToPage 2 (totalPages (List.length ([] : List Student))) = 1 ∧
    ¬(goToPage 2 (totalPages (List.length ([] : List Student))) ≤
        (totalPages (List.length ([] : List Student)) : Int)) := by
  decide

/-- Witness for **C7**: the clamp bounds evaluated on a one-student
roster and an out-of-range page request. -/
theorem pagination_partition_and_clamp_witness :
    1 ≤ goToPage 99 (totalPages (List.length
      [(⟨"A", "B", "", "", "", [], none, none, none, none⟩ : Student)])) ∧
    goToPage 99 (totalPages (List.length
      [(⟨"A", "B", "", "", "", [], none, none, none, none⟩ : Student)])) ≤
      (totalPages (List.length
        [(⟨"A", "B", "", "", "", [], none, none, none, none⟩ :
          Student)]) : Int) := by
  have h := pagination_partition_and_clamp.2.2.2.2 99
    [(⟨"A", "B", "", "", "", [], none, none, none, none⟩ : Student)]
  exact ⟨h.1, h.2 (by decide)⟩

lemma keyCmp_nonpos_iff {β : Type} [LinearOrder β] (asc : Bool) (a b : β) :
    keyCmp asc a b ≤ 0 ↔ (if asc = true then a ≤ b else b ≤ a) := by
  unfold keyCmp
  rcases lt_trichotomy a b with h | h | h
  · rw [if_pos h]
    cases asc
    · simp [not_le.mpr h]
    · simp [h.le]
  · subst h
    simp only [lt_irrefl, if_false]
    cases asc <;> simp
  · rw [if_neg (asymm h), if_pos h]
    cases asc
    · simp [h.le]
    · simp [not_le.mpr h]

lemma jsSort_pair_stable {β : Type} [LinearOrder β] (k : Student → β)
    (asc : Bool) {l : List Student} {a b : Student} (hk : k a = k b)
    (h : List.Sublist [a, b] l) :
    List.Sublist [a, b]
      (l.mergeSort fun x y => decide (keyCmp asc (k x) (k y) ≤ 0)) := by
  apply List.pair_sublist_mergeSort
  · intro x y z hxy hyz
    rw [decide_eq_true_eq, keyCmp_nonpos_iff] at hxy hyz ⊢
    cases asc
    · simp only [Bool.false_eq_true, if_false] at hxy hyz ⊢
      exact le_trans hyz hxy
    · simp only [if_true] at hxy hyz ⊢
      exact le_trans hxy hyz
  · intro x y
    rw [Bool.or_eq_true, decide_eq_true_eq, decide_eq_true_eq,
      keyCmp_nonpos_iff, keyCmp_nonpos_iff]
    cases asc
    · simp only [Bool.false_eq_true, if_false]
      exact le_total _ _
    · simp only [if_true]
      exact le_total _ _
  · rw [decide_eq_true_eq, keyCmp_nonpos_iff, hk]
    cases asc <;> simp
  · exact h

/-- **C8** (confirmed).  Sorting by any of the six columns is stable: two
students whose derived sort values for the active column are equal keep
their relative order from the input list, in either direction. -/
theorem getSortedStudents_stable (col : SortColumn) (asc : Bool)
    (l : List Student) (a b : Student) (hk : sortValEq col a b)
    (h : List.Sublist [a, b] l) :
    List.Sublist [a, b] (getSortedStudents col asc l) := by
  cases col with
  | name => exact jsSort_pair_stable nameSortKey asc hk h
  | pin => exact jsSort_pair_stable (fun s => s.pin) asc hk h
  | email => exact jsSort_pair_stable (fun s => jsToLower s.email) asc hk h
  | status => exact jsSort_pair_stable (fun s => jsToLower s.status) asc hk h
  | sessions => exact jsSort_pair_stable sessionCountKey asc hk h
  | hours =>
    exact jsSort_pair_stable (fun s => calculateTotalHours s.sessions) asc hk h

/-- Witness for **C8**: two students with equal PINs stay in order after
sorting by PIN. -/
theorem getSortedStudents_stable_witness :
    List.Sublist
      [(⟨"A", "", "", "7", "", [], none, none, none, none⟩ : Student),
       (⟨"B", "", "", "7", "", [], none, none, none, none⟩ : Student)]
      (getSortedStudents SortColumn.pin true
        [⟨"A", "", "", "7", "", [], none, none, none, none⟩,
         ⟨"X", "", "", "0", "", [], none, none, none, none⟩,
         ⟨"B", "", "", "7", "", [], none, none, none, none⟩]) :=
  getSortedStudents_stable SortColumn.pin true _ _ _ rfl
    (List.Sublist.cons₂ _ (List.Sublist.cons _ (List.Sublist.refl _)))

lemma digitChar_isDigit (m : Nat) (h : m < 10) :
    (Nat.digitChar m).isDigit = true := by
  interval_cases m <;> decide

lemma fixedFormat_shape (n : Nat) : twoDecimalPlaces (fixedFormat n) :=
  ⟨toString (n / 100), Nat.digitChar (n % 100 / 10 % 10),
    Nat.digitChar (n % 100 % 10),
    digitChar_isDigit _ (Nat.mod_lt _ (by norm_num)),
    digitChar_isDigit _ (Nat.mod_lt _ (by norm_num)), rfl⟩

lemma fixedFormat_neg_shape (n : Nat) :
    twoDecimalPlaces ("-" ++ fixedFormat n) :=
  ⟨"-" ++ toString (n / 100), Nat.digitChar (n % 100 / 10 % 10),
    Nat.digitChar (n % 100 % 10),
    digitChar_isDigit _ (Nat.mod_lt _ (by norm_num)),
    digitChar_isDigit _ (Nat.mod_lt _ (by norm_num)),
    by
      simp only [fixedFormat, twoDigitString]
      rw [← String.append_assoc, ← String.append_assoc]⟩

lemma toFixed2_shape (q : ℚ) : twoDecimalPlaces (toFixed2 q) := by
  unfold toFixed2
  split_ifs with h
  · exact fixedFormat_neg_shape _
  · exact fixedFormat_shape _

/-- **C9** (corrected).  In the sessions CSV every open session renders
its Check-out cell as the literal `"In Progress"`, and the Hours cell is
`toFixed(2)` (a string ending in a point and exactly two digits) when
`hours` is present *and nonzero*; it is the empty string when `hours` is
absent **or equals 0** — JavaScript's truthiness test conflates a stored
zero with absence. -/
theorem sessionsCSV_checkout_hours_cells :
    (∀ session : Session, session.checkout = none →
      checkoutCell session = "In Progress") ∧
    (∀ session : Session, session.hours = none → hoursCell session = "") ∧
    (∀ session : Session, session.hours = some 0 → hoursCell session = "") ∧
    (∀ (session : Session) (q : ℚ), session.hours = some q → q ≠ 0 →
      hoursCell session = toFixed2 q ∧ twoDecimalPlaces (toFixed2 q)) ∧
    (∀ (student : Student) (session : Session),
      sessionRow student session =
        [getFullName student, student.pin, student.email,
         checkinCell session, checkoutCell session, hoursCell session]) ∧
    (∀ students : List Student,
      generateSessionsCSV students =
        csvOfRows (generateSessionsCSVRows students)) := by
  refine ⟨?_, ?_, ?_, ?_, fun _ _ => rfl, fun _ => rfl⟩
  · intro s h
    simp [checkoutCell, h]
  · intro s h
    simp [hoursCell, h]
  · intro s h
    simp [hoursCell, h]
  · intro s q hq hne
    exact ⟨by simp [hoursCell, hq, hne], toFixed2_shape q⟩

/-- **C9** counterexample to the claim as stated: a closed session whose
stored `hours` is the *present* value 0 renders its Hours cell as the
empty string, not as the two-decimal `"0.00"` the claim requires. -/
theorem sessionsCSV_zero_hours_blank :
    (Session.mk (some 0) (some 60) (some 0)).hours = some 0 ∧
    hoursCell (Session.mk (some 0) (some 60) (some 0)) = "" ∧
    toFixed2 0 = "0.00" ∧ ("" : String) ≠ "0.00" ∧
    generateSessionsCSVRows
      [⟨"A", "B", "e", "p", "Current Student", [], none, none, none,
        some [Session.mk (some 0) (some 60) (some 0)]⟩] =
      [sessionsHeaders,
       ["A B", "p", "e", localeString 0, localeString 60, ""]] := by
  decide

/-- Witness for **C9**: the cell theorems evaluated on one open and one
closed session. -/
theorem sessionsCSV_checkout_hours_cells_witness :
    checkoutCell (Session.mk (some 5) none none) = "In Progress" ∧
    hoursCell (Session.mk (some 1) (some 2) (some (5 / 2))) =
      toFixed2 (5 / 2) ∧
    twoDecimalPlaces (toFixed2 (5 / 2)) := by
  refine ⟨sessionsCSV_checkout_hours_cells.1 (Session.mk (some 5) none none)
    rfl, ?_, ?_⟩
  · exact (sessionsCSV_checkout_hours_cells.2.2.2.1
      (Session.mk (some 1) (some 2) (some (5 / 2))) (5 / 2) rfl
      (by norm_num)).1
  · exact (sessionsCSV_checkout_hours_cells.2.2.2.1
      (Session.mk (some 1) (some 2) (some (5 / 2))) (5 / 2) rfl
      (by norm_num)).2

/-- **C10** (confirmed).  The admin view's page counter starts at 1,
every filter run resets it to 1, `goToPage` clamps to at least 1 even
when the filtered roster is empty, so every reachable state has
`currentPage ≥ 1`; and in any reachable state with an empty filtered
roster the displayed page slice is the empty list. -/
theorem adminReachable_currentPage_ge_one :
    initialAdminState.currentPage = 1 ∧
    (∀ (p : Int) (t : Nat), 1 ≤ goToPage p t) ∧
    (∀ s : AdminState, AdminReachable s →
      1 ≤ s.currentPage ∧
      (s.filtered = [] → paginate s.filtered s.currentPage = [])) := by
  have hgo : ∀ (p : Int) (t : Nat), 1 ≤ goToPage p t :=
    fun p t => le_max_left 1 _
  refine ⟨rfl, hgo, ?_⟩
  intro s hs
  induction hs with
  | init => exact ⟨le_refl 1, fun _ => paginate_nil 1⟩
  | step hr hstep ih =>
    cases hstep with
    | fetch data => exact ⟨ih.1, ih.2⟩
    | filter c =>
      refine ⟨le_refl 1, fun h => ?_⟩
      dsimp only at h ⊢
      rw [h]
      exact paginate_nil 1
    | goto p =>
      refine ⟨hgo p _, fun h => ?_⟩
      dsimp only at h ⊢
      rw [h]
      exact paginate_nil _

/-- Witness for **C10**: the invariant read off at the (reachable)
initial state. -/
theorem adminReachable_currentPage_ge_one_witness :
    1 ≤ initialAdminState.currentPage ∧
    paginate initialAdminState.filtered initialAdminState.currentPage
      = [] := by
  have h := adminReachable_currentPage_ge_one.2.2 initialAdminState
    AdminReachable.init
  exact ⟨h.1, h.2 rfl⟩
